import Mathlib

/-!
Verification development for the multi-tenant analytics platform.

The definitions below are a shallow embedding of the repository
source files:
- the role policy and access guard (`ROLES`, `hasMinimumRole`, `assertRole`);
- the tenant-scoped data gateway (`OrgDatabase` and its operations);
- the middleware org-id extraction (`parseIntJS`, `getOrgIdFromRequest`);
- the dashboard aggregation (`getOrgDashboard`);
- the KPI snapshot uniqueness key from the schema (`kpiSnapshotKey`).

Database tables are embedded as lists of rows inside a `DBState`;
SQL timestamps and numeric ids are embedded as `Int`; the decimal KPI
value is embedded as a scaled integer.  The asynchronous request
lifecycle is embedded as explicit state passing: every stateful
operation takes the `DBState` (and, where the source reads the
session, an optional `SessionUser`) and returns a result, possibly
with an updated `DBState`.
-/

/-- Roles, from the rbac module: `ROLES = { owner: 3, admin: 2, member: 1 }`. -/
inductive Role
  | owner
  | admin
  | member
deriving DecidableEq, Fintype

/-- The numeric role hierarchy table from the rbac module. -/
def ROLES : Role → Nat
  | .owner => 3
  | .admin => 2
  | .member => 1

/-- `hasMinimumRole(userRole, requiredRole) = ROLES[userRole] >= ROLES[requiredRole]`. -/
def hasMinimumRole (userRole requiredRole : Role) : Bool :=
  ROLES requiredRole ≤ ROLES userRole

/-- A row of the `user_organizations` table (schema.ts). -/
structure UserOrganization where
  id : Int
  userId : Int
  organizationId : Int
  role : Role
deriving DecidableEq

/-- A row of the `organizations` table (schema.ts); only the fields the
embedded operations touch are kept. -/
structure Organization where
  id : Int
  name : String
  slug : String
  plan : String
  billingEmail : Option String
deriving DecidableEq

/-- A row of the `projects` table (schema.ts). -/
structure Project where
  id : Int
  organizationId : Int
  name : String
  description : Option String
  apiKey : String
  domain : Option String
  isActive : Bool
deriving DecidableEq

/-- A row of the `events` table (schema.ts); `timestamp` is embedded as `Int`
and the jsonb `metadata` as an opaque optional string. -/
structure Event where
  id : Int
  organizationId : Int
  projectId : Int
  eventName : String
  userId : Option String
  sessionId : Option String
  metadata : Option String
  timestamp : Int
  ipAddress : Option String
  userAgent : Option String
deriving DecidableEq

/-- A row of the `kpi_snapshots` table (schema.ts); `projectId` is nullable
(null = org-level KPI), `periodStart`/`periodEnd` are embedded as `Int`,
and the `decimal(15,4)` value as a scaled integer. -/
structure KpiSnapshot where
  id : Int
  organizationId : Int
  projectId : Option Int
  key : String
  periodStart : Int
  periodEnd : Int
  value : Int
  metadata : Option String
deriving DecidableEq

/-- The database, embedded as the lists of rows of the tables the claims
touch. -/
structure DBState where
  organizations : List Organization
  memberships : List UserOrganization
  projects : List Project
  events : List Event
  kpiSnapshots : List KpiSnapshot
deriving DecidableEq

/-- The authenticated session user: `id` embeds `parseInt(session.user.id)`
and `email` is the optional email the access guard checks. -/
structure SessionUser where
  id : Int
  email : Option String
deriving DecidableEq

/-- The typed error surface of the embedded guard and gateway operations. -/
inductive AuthzError
  | unauthenticated
  | notAMember
  | insufficientRole
  | projectNotFound
deriving DecidableEq

/-- JS truthiness for an optional number: `undefined` and `0` are falsy. -/
def truthyNum : Option Int → Bool
  | none => false
  | some n => n != 0

/-- JS truthiness for an optional string: `null` and the empty string are
falsy. -/
def truthyStr : Option String → Bool
  | none => false
  | some s => s != ""

/-- Whether an `organizations` row with the given id exists; embeds the
inner join on `organizations.id = userOrganizations.organizationId`. -/
def orgExists (db : DBState) (orgId : Int) : Bool :=
  db.organizations.any (fun o => o.id == orgId)

/-- The membership lookup used by `OrgDatabase.create`: filter
`user_organizations` by organization id and user id, `limit 1`. -/
def findMembership (db : DBState) (userId orgId : Int) : Option UserOrganization :=
  (db.memberships.filter
    (fun m => m.organizationId == orgId && m.userId == userId)).head?

/-- `assertRole(orgId, requiredRoles)` from the rbac module: fails when no
session email is present; looks up the membership row joined with
`organizations`, `limit 1`; fails when none; fails when the role satisfies
no required role (`requiredRoles.some(role => hasMinimumRole(userRole, role))`);
otherwise returns `(userRole, orgId)`. -/
def assertRole (session : Option SessionUser) (db : DBState) (orgId : Int)
    (requiredRoles : List Role) : Except AuthzError (Role × Int) :=
  match session with
  | none => .error .unauthenticated
  | some su =>
    match su.email with
    | none => .error .unauthenticated
    | some _ =>
      match (db.memberships.filter
          (fun m => orgExists db m.organizationId &&
            (m.organizationId == orgId && m.userId == su.id))).head? with
      | none => .error .notAMember
      | some m =>
        if requiredRoles.any (fun r => hasMinimumRole m.role r) then
          .ok (m.role, orgId)
        else
          .error .insufficientRole

/-- The org-scoped gateway: the verified organization id and user id it
was constructed with (`OrgDatabase` in db-org). -/
structure OrgDatabase where
  orgId : Int
  userId : Int
deriving DecidableEq

/-- `OrgDatabase.create(orgId)`: fails without a session user id; looks up
the membership row for (orgId, session user), `limit 1`; fails when none;
otherwise constructs the gateway holding the verified ids. -/
def OrgDatabase.create (session : Option SessionUser) (db : DBState)
    (orgId : Int) : Except AuthzError OrgDatabase :=
  match session with
  | none => .error .unauthenticated
  | some su =>
    match findMembership db su.id orgId with
    | none => .error .notAMember
    | some _ => .ok ⟨orgId, su.id⟩

/-- Boolean success test for an `Except` result. -/
def isOkE {ε α : Type} : Except ε α → Bool
  | .ok _ => true
  | .error _ => false

/-- `getProjects()`: all `projects` rows filtered by the bound org id. -/
def OrgDatabase.getProjects (g : OrgDatabase) (db : DBState) : List Project :=
  db.projects.filter (fun p => p.organizationId == g.orgId)

/-- `getProject(projectId)`: `projects` filtered by id and bound org id,
`limit 1`, `result[0] || null`. -/
def OrgDatabase.getProject (g : OrgDatabase) (db : DBState)
    (projectId : Int) : Option Project :=
  (db.projects.filter
    (fun p => p.id == projectId && p.organizationId == g.orgId)).head?

/-- `getEvents(projectId?, limit = 1000)`: `events` filtered by the bound
org id, plus a project filter only when `projectId` is truthy, ordered by
timestamp (ascending), capped at `limit`. -/
def OrgDatabase.getEvents (g : OrgDatabase) (db : DBState)
    (projectId : Option Int := none) (limit : Nat := 1000) : List Event :=
  ((db.events.filter
      (fun e => e.organizationId == g.orgId &&
        (if truthyNum projectId then e.projectId == projectId.getD 0
         else true))).insertionSort
    (fun a b => a.timestamp ≤ b.timestamp)).take limit

/-- `getKpiSnapshots(projectId?, key?)`: `kpi_snapshots` filtered by the
bound org id, plus a project filter / key filter only when the argument is
truthy, ordered by period start.  The SQL equality `projectId = pid` is
false on a NULL `projectId`. -/
def OrgDatabase.getKpiSnapshots (g : OrgDatabase) (db : DBState)
    (projectId : Option Int := none) (key : Option String := none) :
    List KpiSnapshot :=
  (db.kpiSnapshots.filter
      (fun k => k.organizationId == g.orgId &&
        (if truthyNum projectId then k.projectId == some (projectId.getD 0)
         else true) &&
        (if truthyStr key then k.key == key.getD "" else true))).insertionSort
    (fun a b => a.periodStart ≤ b.periodStart)

/-- `createProject(data)`: inserts a `projects` row stamped with the bound
org id and `isActive = true`, returning it.  `freshId` embeds the serial
primary key the database assigns; `apiKey` embeds the value produced by
`generateApiKey()` (a 32-character random string, not embeddable). -/
def OrgDatabase.createProject (g : OrgDatabase) (db : DBState)
    (freshId : Int) (apiKey : String) (name : String)
    (description : Option String) (domain : Option String) :
    Project × DBState :=
  let p : Project :=
    { id := freshId, organizationId := g.orgId, name := name,
      description := description, apiKey := apiKey, domain := domain,
      isActive := true }
  (p, { db with projects := db.projects ++ [p] })

/-- The caller-supplied event fields of `insertEvent`. -/
structure EventData where
  eventName : String
  userId : Option String
  sessionId : Option String
  metadata : Option String
  ipAddress : Option String
  userAgent : Option String
deriving DecidableEq

/-- `insertEvent(projectId, eventData)`: verifies the project through the
org-scoped `getProject`; fails when none; otherwise inserts an `events`
row stamped with the bound org id.  `freshId` embeds the serial primary
key and `now` the `defaultNow()` timestamp. -/
def OrgDatabase.insertEvent (g : OrgDatabase) (db : DBState)
    (projectId : Int) (eventData : EventData) (freshId now : Int) :
    Except AuthzError (Event × DBState) :=
  match g.getProject db projectId with
  | none => .error .projectNotFound
  | some _ =>
    let e : Event :=
      { id := freshId, organizationId := g.orgId, projectId := projectId,
        eventName := eventData.eventName, userId := eventData.userId,
        sessionId := eventData.sessionId, metadata := eventData.metadata,
        timestamp := now, ipAddress := eventData.ipAddress,
        userAgent := eventData.userAgent }
    .ok (e, { db with events := db.events ++ [e] })

/-- `getOrganization()`: the `organizations` row for the bound org id,
`limit 1` (the source returns the selected list). -/
def OrgDatabase.getOrganization (g : OrgDatabase) (db : DBState) :
    List Organization :=
  (db.organizations.filter (fun o => o.id == g.orgId)).take 1

/-- Whitespace skipped by the JS `parseInt`. -/
def isSpaceChar (c : Char) : Bool :=
  c == ' ' || c == '\t' || c == '\n' || c == '\r'

/-- A JS number as `parseInt` can produce it: either `NaN` or an integer. -/
inductive JSNum
  | nan
  | int (n : Int)
deriving DecidableEq

/-- The JS `parseInt(s, 10)`: skip leading whitespace, read an optional
sign and a maximal run of decimal digits; `NaN` when no digit is read. -/
def parseIntJS (s : String) : JSNum :=
  let cs := s.toList.dropWhile isSpaceChar
  let signAndRest : Int × List Char :=
    match cs with
    | '-' :: t => (-1, t)
    | '+' :: t => (1, t)
    | _ => (1, cs)
  let digits := signAndRest.2.takeWhile Char.isDigit
  if digits.isEmpty then .nan
  else .int (signAndRest.1 *
    digits.foldl (fun acc c => 10 * acc + ((c.toNat - '0'.toNat : Nat) : Int)) 0)

/-- The parts of the incoming request that the middleware
`getOrgIdFromRequest` reads: the `orgId` search parameter, the `x-org-id`
header and the URL path. -/
structure NextRequest where
  searchParamOrgId : Option String
  headerOrgId : Option String
  pathname : String
deriving DecidableEq

/-- Drop the pattern from the head of the character list, when it is
there. -/
def stripLead : List Char → List Char → Option (List Char)
  | [], s => some s
  | _ :: _, [] => none
  | p :: ps, c :: cs => if p == c then stripLead ps cs else none

/-- The first match of the regular expression `\/api\/org\/(\d+)` in a
character list: the maximal digit run after the first occurrence of
`/api/org/` that is followed by at least one digit (the regular
expression keeps scanning when no digit follows). -/
def findApiOrgDigits : List Char → Option (List Char)
  | [] => none
  | c :: cs =>
    match stripLead "/api/org/".toList (c :: cs) with
    | some rest =>
      let digits := rest.takeWhile Char.isDigit
      if digits.isEmpty then findApiOrgDigits cs else some digits
    | none => findApiOrgDigits cs

/-- `getOrgIdFromRequest(req)` from the org middleware: `parseInt` of the
`orgId` search parameter when truthy, else of the `x-org-id` header when
truthy, else of the first `/api/org/<digits>` path match, else null. -/
def getOrgIdFromRequest (req : NextRequest) : Option JSNum :=
  if truthyStr req.searchParamOrgId then
    some (parseIntJS (req.searchParamOrgId.getD ""))
  else if truthyStr req.headerOrgId then
    some (parseIntJS (req.headerOrgId.getD ""))
  else
    match findApiOrgDigits req.pathname.toList with
    | some digits => some (parseIntJS (String.mk digits))
    | none => none

/-- The derived metrics of the dashboard aggregation. -/
structure DashboardMetrics where
  totalProjects : Nat
  activeProjects : Nat
  totalEvents : Nat
deriving DecidableEq

/-- The payload `getOrgDashboard` returns on success. -/
structure DashboardData where
  organization : List Organization
  metrics : DashboardMetrics
  projects : List Project
  recentEvents : List Event
  kpiSnapshots : List KpiSnapshot
deriving DecidableEq

/-- `getOrgDashboard(orgId)` from org-actions: `assertRole(orgId, [member])`,
then an org-scoped gateway, then `getProjects()`, `getEvents(undefined, 10)`
and `getKpiSnapshots()`, deriving the metrics from the fetched lists. -/
def getOrgDashboard (session : Option SessionUser) (db : DBState)
    (orgId : Int) : Except AuthzError DashboardData := do
  let _ ← assertRole session db orgId [.member]
  let orgDb ← OrgDatabase.create session db orgId
  let projects := orgDb.getProjects db
  let recentEvents := orgDb.getEvents db none 10
  let kpiSnapshots := orgDb.getKpiSnapshots db none none
  return {
    organization := orgDb.getOrganization db,
    metrics := {
      totalProjects := projects.length,
      activeProjects := (projects.filter (fun p => p.isActive)).length,
      totalEvents := recentEvents.length },
    projects := projects,
    recentEvents := recentEvents,
    kpiSnapshots := kpiSnapshots }

/-- The column tuple of the schema constraint `uniq_org_project_key_period`
(schema.ts, `uniqOrgProjectKeyPeriod`). -/
def kpiSnapshotKey (k : KpiSnapshot) : Int × Option Int × String × Int :=
  (k.organizationId, k.projectId, k.key, k.periodStart)

/-- The schema invariant the unique constraint enforces: no two
`kpi_snapshots` rows share the `uniq_org_project_key_period` tuple. -/
def kpiUnique (rows : List KpiSnapshot) : Prop :=
  rows.Pairwise (fun a b => kpiSnapshotKey a ≠ kpiSnapshotKey b)

/-- Modelled from the spec: the KPI snapshot recomputation writer is
missing from the repository (the worker app is an unimplemented stub;
only the schema constraint `uniqOrgProjectKeyPeriod` is present).  Per
the spec, recomputation must upsert/replace, never duplicate, on the
(organization, project, metric key, period start) tuple: when a row with
the same tuple exists it is replaced by the new row, otherwise the new
row is inserted. -/
def upsertKpiSnapshot (rows : List KpiSnapshot) (row : KpiSnapshot) :
    List KpiSnapshot :=
  if rows.any (fun k => kpiSnapshotKey k == kpiSnapshotKey row) then
    rows.map (fun k => if kpiSnapshotKey k == kpiSnapshotKey row then row else k)
  else
    rows ++ [row]

/-- Sample session user (user id 7) used by the concrete checks. -/
def su7 : SessionUser := { id := 7, email := some "alice@example.com" }

/-- Sample gateway bound to organization 1 for user 7. -/
def gw1 : OrgDatabase := { orgId := 1, userId := 7 }

/-- Sample organization row with id 1. -/
def org1 : Organization :=
  { id := 1, name := "Org One", slug := "org-one", plan := "free",
    billingEmail := none }

/-- Sample project row with id 5 belonging to organization 1. -/
def proj5 : Project :=
  { id := 5, organizationId := 1, name := "Site", description := none,
    apiKey := "key5", domain := none, isActive := true }

/-- Sample event row of organization 1, project 5, at the given
timestamp. -/
def mkEvent (i : Int) : Event :=
  { id := i, organizationId := 1, projectId := 5, eventName := "page_view",
    userId := none, sessionId := none, metadata := none, timestamp := i,
    ipAddress := none, userAgent := none }

/-- Sample event fields for concrete `insertEvent` checks. -/
def ed0 : EventData :=
  { eventName := "purchase", userId := none, sessionId := none,
    metadata := none, ipAddress := none, userAgent := none }

/-- Sample database: organization 1 with member user 7, one project and
eleven events with timestamps 1..11. -/
def dashDb : DBState :=
  { organizations := [org1],
    memberships := [{ id := 1, userId := 7, organizationId := 1,
                      role := .member }],
    projects := [proj5],
    events := (List.range 11).map (fun i => mkEvent (Int.ofNat i + 1)),
    kpiSnapshots := [] }

/-- Request carrying both the header x-org-id: 42 and the query parameter
orgId=99. -/
def reqHeader42Query99 : NextRequest :=
  { searchParamOrgId := some "99", headerOrgId := some "42",
    pathname := "/api/projects" }

/-- Request whose only org-id source is the non-numeric query parameter
orgId=abc. -/
def reqQueryAbc : NextRequest :=
  { searchParamOrgId := some "abc", headerOrgId := none, pathname := "/" }

/-- Request whose only org-id source is the query parameter orgId=0. -/
def reqQueryZero : NextRequest :=
  { searchParamOrgId := some "0", headerOrgId := none, pathname := "/" }

/-- Request whose only org-id source is the query parameter orgId=-5. -/
def reqQueryNeg : NextRequest :=
  { searchParamOrgId := some "-5", headerOrgId := none, pathname := "/" }

/-- Request with no org-id source at all. -/
def reqNoSource : NextRequest :=
  { searchParamOrgId := none, headerOrgId := none,
    pathname := "/api/projects" }

/-- Sample KPI snapshot row for the (org 1, project 5, daily_page_views,
period 20240101) tuple with the given value. -/
def kpiRow (v : Int) : KpiSnapshot :=
  { id := 1, organizationId := 1, projectId := some 5,
    key := "daily_page_views", periodStart := 20240101,
    periodEnd := 20240102, value := v, metadata := none }

/-- The claimed role-order facts, proved over the source table. -/
theorem hasMinimumRole_rank_spec :
    (∀ a r : Role, hasMinimumRole a r = true ↔ ROLES r ≤ ROLES a) ∧
    (∀ r1 r2 : Role, ROLES r1 ≤ ROLES r2 →
      hasMinimumRole r2 r1 = true ∧
        (hasMinimumRole r1 r2 = true → r1 = r2)) := by
  decide

/-- Witness for `hasMinimumRole_rank_spec`: the inner implication at the
concrete pair member ≤ owner. -/
theorem hasMinimumRole_rank_spec_witness :
    hasMinimumRole Role.owner Role.member = true :=
  (hasMinimumRole_rank_spec.2 Role.member Role.owner (by decide)).1

/-- The left conjunct of a true Boolean conjunction. -/
theorem bandL {a b : Bool} (h : (a && b) = true) : a = true := by
  cases a <;> simp_all

/-- The right conjunct of a true Boolean conjunction. -/
theorem bandR {a b : Bool} (h : (a && b) = true) : b = true := by
  cases a <;> simp_all

/-- A `limit 1` result taken from a filtered list is a member of the list
and satisfies the filter. -/
theorem head?_filter_mem {α : Type} {p : α → Bool} {l : List α} {a : α}
    (h : (l.filter p).head? = some a) : a ∈ l ∧ p a = true := by
  have hm : a ∈ l.filter p := by
    cases hl : l.filter p with
    | nil => simp [hl] at h
    | cons b t =>
      rw [hl] at h
      simp only [List.head?_cons, Option.some.injEq] at h
      rw [h]
      exact List.mem_cons_self a t
  exact List.mem_filter.mp hm

/-- Membership in an order-by / limit result implies membership in the
underlying filtered rows. -/
theorem mem_of_sort_take {α : Type} {r : α → α → Prop} [DecidableRel r]
    {l : List α} {n : Nat} {a : α}
    (h : a ∈ (l.insertionSort r).take n) : a ∈ l :=
  (List.perm_insertionSort r l).mem_iff.mp (List.take_subset n _ h)

/-- C1: every gateway operation returns or writes only rows whose
organization id equals the bound org id; the two mutations append exactly
the stamped row and leave every other table untouched. -/
theorem orgDatabase_isolation (g : OrgDatabase) (db : DBState) :
    (∀ p ∈ g.getProjects db, p.organizationId = g.orgId) ∧
    (∀ pid p, g.getProject db pid = some p → p.organizationId = g.orgId) ∧
    (∀ pidOpt lim, ∀ e ∈ g.getEvents db pidOpt lim,
      e.organizationId = g.orgId) ∧
    (∀ pidOpt key, ∀ k ∈ g.getKpiSnapshots db pidOpt key,
      k.organizationId = g.orgId) ∧
    (∀ freshId apiKey name descr dom,
      (g.createProject db freshId apiKey name descr dom).1.organizationId
          = g.orgId ∧
      (g.createProject db freshId apiKey name descr dom).2.projects =
        db.projects ++ [(g.createProject db freshId apiKey name descr dom).1] ∧
      (g.createProject db freshId apiKey name descr dom).2.events = db.events ∧
      (g.createProject db freshId apiKey name descr dom).2.kpiSnapshots =
        db.kpiSnapshots) ∧
    (∀ pid ed freshId now ev db2,
      g.insertEvent db pid ed freshId now = .ok (ev, db2) →
      ev.organizationId = g.orgId ∧ db2.events = db.events ++ [ev] ∧
      db2.projects = db.projects ∧ db2.kpiSnapshots = db.kpiSnapshots) := by
  refine ⟨?_, ?_, ?_, ?_, ?_, ?_⟩
  · intro p hp
    exact beq_iff_eq.mp (List.mem_filter.mp hp).2
  · intro pid p hp
    have h := head?_filter_mem hp
    exact beq_iff_eq.mp (bandR h.2)
  · intro pidOpt lim e he
    have h := List.mem_filter.mp (mem_of_sort_take he)
    exact beq_iff_eq.mp (bandL h.2)
  · intro pidOpt key k hk
    have h := List.mem_filter.mp
      ((List.perm_insertionSort _ _).mem_iff.mp hk)
    exact beq_iff_eq.mp (bandL (bandL h.2))
  · intro freshId apiKey name descr dom
    exact ⟨rfl, rfl, rfl, rfl⟩
  · intro pid ed freshId now ev db2 h
    unfold OrgDatabase.insertEvent at h
    cases hgp : g.getProject db pid with
    | none => rw [hgp] at h; cases h
    | some p =>
      rw [hgp] at h
      simp only [Except.ok.injEq, Prod.mk.injEq] at h
      obtain ⟨he, hdb⟩ := h
      subst he
      subst hdb
      exact ⟨rfl, rfl, rfl, rfl⟩

/-- Witness for `orgDatabase_isolation`: the org-scoped project lookup at
the sample database returns a row of the bound organization. -/
theorem orgDatabase_isolation_witness :
    gw1.getProject dashDb 5 = some proj5 ∧
    proj5.organizationId = gw1.orgId :=
  ⟨rfl, (orgDatabase_isolation gw1 dashDb).2.1 5 proj5 rfl⟩

/-- Under the schema foreign key (every membership row references an
existing organization), the inner join with `organizations` inside
`assertRole` filters nothing out. -/
theorem assertRole_join_eq (db : DBState) (orgId uid : Int)
    (hfk : ∀ m ∈ db.memberships, orgExists db m.organizationId = true) :
    db.memberships.filter
        (fun m => orgExists db m.organizationId &&
          (m.organizationId == orgId && m.userId == uid)) =
      db.memberships.filter
        (fun m => m.organizationId == orgId && m.userId == uid) := by
  apply List.filter_congr
  intro m hm
  rw [hfk m hm]
  simp

/-- C2: with no session the guard fails Unauthenticated (likewise with a
session lacking an email); with a caller identity established it fails
NotAMember exactly when no membership row matches (callerId, orgId),
fails InsufficientRole exactly when the membership role satisfies no
required role (OR semantics), and otherwise returns the caller role. -/
theorem assertRole_characterization (su : SessionUser) (db : DBState)
    (orgId : Int) (req : List Role) (e : String) (he : su.email = some e)
    (hfk : ∀ m ∈ db.memberships, orgExists db m.organizationId = true) :
    (assertRole none db orgId req = .error .unauthenticated) ∧
    (∀ su2 : SessionUser, su2.email = none →
      assertRole (some su2) db orgId req = .error .unauthenticated) ∧
    (assertRole (some su) db orgId req = .error .notAMember ↔
      findMembership db su.id orgId = none) ∧
    (∀ m, findMembership db su.id orgId = some m →
      (assertRole (some su) db orgId req = .error .insufficientRole ↔
        req.any (fun r => hasMinimumRole m.role r) = false)) ∧
    (∀ m, findMembership db su.id orgId = some m →
      req.any (fun r => hasMinimumRole m.role r) = true →
      assertRole (some su) db orgId req = .ok (m.role, orgId)) := by
  obtain ⟨uid, em⟩ := su
  have he2 : em = some e := he
  subst he2
  have hfm : findMembership db uid orgId =
      (db.memberships.filter
        (fun m => m.organizationId == orgId && m.userId == uid)).head? := rfl
  have hA : assertRole (some ⟨uid, some e⟩) db orgId req =
      (match findMembership db uid orgId with
       | none => .error .notAMember
       | some m =>
         if req.any (fun r => hasMinimumRole m.role r) then
           .ok (m.role, orgId)
         else
           .error .insufficientRole) := by
    rw [hfm, ← assertRole_join_eq db orgId uid hfk]
    rfl
  refine ⟨rfl, ?_, ?_, ?_, ?_⟩
  · intro su2 h2
    obtain ⟨uid2, em2⟩ := su2
    have h2b : em2 = none := h2
    subst h2b
    rfl
  · rw [hA]
    cases hm : findMembership db uid orgId with
    | none => simp
    | some m =>
      by_cases hany : req.any (fun r => hasMinimumRole m.role r) = true <;>
        simp [hany]
  · intro m hm
    rw [hA, hm]
    by_cases hany : req.any (fun r => hasMinimumRole m.role r) = true <;>
      simp [hany]
  · intro m hm hany
    rw [hA, hm]
    exact if_pos hany

/-- Witness for `assertRole_characterization`: the spec scenario — user 7
is a member of org 1 and not of org 2: NotAMember on org 2,
InsufficientRole on org 1 with required admin/owner, success with
required member. -/
theorem assertRole_characterization_witness :
    assertRole (some su7) dashDb 2 [.member] = .error .notAMember ∧
    assertRole (some su7) dashDb 1 [.admin, .owner]
        = .error .insufficientRole ∧
    assertRole (some su7) dashDb 1 [.member] = .ok (.member, 1) := by
  refine ⟨?_, ?_, ?_⟩
  · exact (assertRole_characterization su7 dashDb 2 [.member] _ rfl
      (by decide)).2.2.1.mpr rfl
  · exact ((assertRole_characterization su7 dashDb 1 [.admin, .owner] _ rfl
      (by decide)).2.2.2.1 ⟨1, 7, 1, .member⟩ rfl).mpr rfl
  · exact (assertRole_characterization su7 dashDb 1 [.member] _ rfl
      (by decide)).2.2.2.2 ⟨1, 7, 1, .member⟩ rfl rfl

/-- The membership lookup fails exactly when no row matches. -/
theorem findMembership_eq_none_iff (db : DBState) (uid orgId : Int) :
    findMembership db uid orgId = none ↔
      ∀ m ∈ db.memberships,
        ¬(m.organizationId = orgId ∧ m.userId = uid) := by
  unfold findMembership
  rw [List.head?_eq_none_iff, List.filter_eq_nil_iff]
  constructor
  · intro h m hm
    have := h m hm
    simp only [Bool.and_eq_true, beq_iff_eq] at this
    exact this
  · intro h m hm
    have := h m hm
    simp only [Bool.and_eq_true, beq_iff_eq]
    exact this

/-- Any role satisfies the required set containing member. -/
theorem any_role_satisfies_member (r : Role) :
    [Role.member, Role.admin, Role.owner].any
      (fun q => hasMinimumRole r q) = true := by
  cases r <;> rfl

/-- C3: gateway construction succeeds exactly when a membership row for
(caller, org) exists — any role — which coincides with the guard run
with required roles member, admin, owner; the constructed gateway stores
the verified org id and caller id. -/
theorem orgDatabase_create_spec (su : SessionUser) (db : DBState)
    (orgId : Int) (e : String) (he : su.email = some e)
    (hfk : ∀ m ∈ db.memberships, orgExists db m.organizationId = true) :
    (isOkE (OrgDatabase.create (some su) db orgId) = true ↔
      ∃ m ∈ db.memberships, m.organizationId = orgId ∧ m.userId = su.id) ∧
    (isOkE (OrgDatabase.create (some su) db orgId) =
      isOkE (assertRole (some su) db orgId [.member, .admin, .owner])) ∧
    (∀ g, OrgDatabase.create (some su) db orgId = .ok g →
      g.orgId = orgId ∧ g.userId = su.id) := by
  obtain ⟨uid, em⟩ := su
  have he2 : em = some e := he
  subst he2
  have hfm : findMembership db uid orgId =
      (db.memberships.filter
        (fun m => m.organizationId == orgId && m.userId == uid)).head? := rfl
  have hC : OrgDatabase.create (some ⟨uid, some e⟩) db orgId =
      (match findMembership db uid orgId with
       | none => .error .notAMember
       | some _ => .ok ⟨orgId, uid⟩) := rfl
  have hA : assertRole (some ⟨uid, some e⟩) db orgId
        [.member, .admin, .owner] =
      (match findMembership db uid orgId with
       | none => .error .notAMember
       | some m =>
         if [Role.member, Role.admin, Role.owner].any
             (fun r => hasMinimumRole m.role r) then
           .ok (m.role, orgId)
         else
           .error .insufficientRole) := by
    rw [hfm, ← assertRole_join_eq db orgId uid hfk]
    rfl
  refine ⟨?_, ?_, ?_⟩
  · rw [hC]
    cases hm : findMembership db uid orgId with
    | none =>
      rw [findMembership_eq_none_iff] at hm
      simp only [isOkE]
      constructor
      · intro h
        exact absurd h (by simp)
      · rintro ⟨m, hmem, h1, h2⟩
        exact absurd ⟨h1, h2⟩ (hm m hmem)
    | some m =>
      simp only [isOkE]
      have h := head?_filter_mem hm
      constructor
      · intro _
        exact ⟨m, h.1, beq_iff_eq.mp (bandL h.2), beq_iff_eq.mp (bandR h.2)⟩
      · intro _
        trivial
  · rw [hC, hA]
    cases hm : findMembership db uid orgId with
    | none => rfl
    | some m => simp [any_role_satisfies_member m.role, isOkE]
  · intro g h
    rw [hC] at h
    cases hm : findMembership db uid orgId with
    | none =>
      rw [hm] at h
      exact Except.noConfusion
        (h : (Except.error AuthzError.notAMember
          : Except AuthzError OrgDatabase) = Except.ok g)
    | some m =>
      rw [hm] at h
      have h2 : (Except.ok (⟨orgId, uid⟩ : OrgDatabase)
          : Except AuthzError OrgDatabase) = Except.ok g := h
      have h3 : (⟨orgId, uid⟩ : OrgDatabase) = g := by
        injection h2
      rw [← h3]
      exact ⟨rfl, rfl⟩

/-- Witness for `orgDatabase_create_spec`: construction succeeds at the
sample database where user 7 is a member of org 1. -/
theorem orgDatabase_create_spec_witness :
    isOkE (OrgDatabase.create (some su7) dashDb 1) = true :=
  (orgDatabase_create_spec su7 dashDb 1 _ rfl (by decide)).1.mpr
    ⟨⟨1, 7, 1, .member⟩, by decide, rfl, rfl⟩

/-- C5: insertEvent fails with ProjectNotFound exactly when the org-scoped
getProject finds nothing — equivalently, when no project row with that id
belongs to the bound organization, global existence notwithstanding — and
otherwise appends exactly one event row stamped with the bound org id. -/
theorem insertEvent_spec (g : OrgDatabase) (db : DBState) (pid : Int)
    (ed : EventData) (freshId now : Int) :
    (g.insertEvent db pid ed freshId now = .error .projectNotFound ↔
      g.getProject db pid = none) ∧
    (g.getProject db pid = none ↔
      ∀ p ∈ db.projects, ¬(p.id = pid ∧ p.organizationId = g.orgId)) ∧
    (∀ p, g.getProject db pid = some p →
      ∃ ev db2, g.insertEvent db pid ed freshId now = .ok (ev, db2) ∧
        ev.organizationId = g.orgId ∧ ev.projectId = pid ∧
        db2.events = db.events ++ [ev] ∧ db2.projects = db.projects ∧
        db2.kpiSnapshots = db.kpiSnapshots) := by
  refine ⟨?_, ?_, ?_⟩
  · unfold OrgDatabase.insertEvent
    cases hgp : g.getProject db pid with
    | none => simp
    | some p => simp
  · unfold OrgDatabase.getProject
    rw [List.head?_eq_none_iff, List.filter_eq_nil_iff]
    constructor
    · intro h p hp
      have := h p hp
      simp only [Bool.and_eq_true, beq_iff_eq] at this
      exact this
    · intro h p hp
      have := h p hp
      simp only [Bool.and_eq_true, beq_iff_eq]
      exact this
  · intro p hp
    unfold OrgDatabase.insertEvent
    rw [hp]
    exact ⟨_, _, rfl, rfl, rfl, rfl, rfl, rfl⟩

/-- Witness for `insertEvent_spec`: inserting into the sample database
through the gateway of organization 1 appends one stamped event row. -/
theorem insertEvent_spec_witness :
    gw1.getProject dashDb 5 = some proj5 ∧
    ∃ ev db2, gw1.insertEvent dashDb 5 ed0 100 50 = .ok (ev, db2) ∧
      ev.organizationId = gw1.orgId ∧ ev.projectId = 5 ∧
      db2.events = dashDb.events ++ [ev] ∧ db2.projects = dashDb.projects ∧
      db2.kpiSnapshots = dashDb.kpiSnapshots :=
  ⟨rfl, (insertEvent_spec gw1 dashDb 5 ed0 100 50).2.2 proj5 rfl⟩

/-- C10: a projectId of 0 is falsy in the source, so the project filter is
skipped: the calls behave exactly like the unfiltered ones and return the
bound org's rows across every project. -/
theorem projectIdZero_unfiltered (g : OrgDatabase) (db : DBState)
    (lim : Nat) (key : Option String) :
    g.getEvents db (some 0) lim = g.getEvents db none lim ∧
    g.getKpiSnapshots db (some 0) key = g.getKpiSnapshots db none key ∧
    (∀ k, k ∈ g.getKpiSnapshots db (some 0) none ↔
      (k ∈ db.kpiSnapshots ∧ k.organizationId = g.orgId)) := by
  refine ⟨rfl, rfl, ?_⟩
  intro k
  unfold OrgDatabase.getKpiSnapshots
  rw [(List.perm_insertionSort _ _).mem_iff, List.mem_filter]
  simp [truthyNum, truthyStr]

/-- Witness for `projectIdZero_unfiltered` at the sample database. -/
theorem projectIdZero_unfiltered_witness :
    gw1.getEvents dashDb (some 0) 3 = gw1.getEvents dashDb none 3 :=
  (projectIdZero_unfiltered gw1 dashDb 3 none).1

/-- Replacing the matching row keeps the uniqueness key of every row. -/
theorem kpiSnapshotKey_replace (r x : KpiSnapshot) :
    kpiSnapshotKey
        (if kpiSnapshotKey x == kpiSnapshotKey r then r else x) =
      kpiSnapshotKey x := by
  by_cases hx : kpiSnapshotKey x == kpiSnapshotKey r
  · rw [if_pos hx]
    exact (beq_iff_eq.mp hx).symm
  · rw [if_neg hx]

/-- Filtering the replaced rows by the key of the new row yields exactly
that row, when the key occurs and keys are unique. -/
theorem replace_filter_key (t : List KpiSnapshot) (r : KpiSnapshot)
    (h : kpiUnique t)
    (hany : t.any (fun k => kpiSnapshotKey k == kpiSnapshotKey r) = true) :
    (t.map (fun k =>
        if kpiSnapshotKey k == kpiSnapshotKey r then r else k)).filter
      (fun k => kpiSnapshotKey k == kpiSnapshotKey r) = [r] := by
  induction t with
  | nil => simp at hany
  | cons a t ih =>
    have hps := List.pairwise_cons.mp h
    by_cases ha : kpiSnapshotKey a == kpiSnapshotKey r
    · have hkey : kpiSnapshotKey a = kpiSnapshotKey r := beq_iff_eq.mp ha
      have hmapt : t.map (fun k =>
          if kpiSnapshotKey k == kpiSnapshotKey r then r else k) = t := by
        have h1 : t.map (fun k =>
            if kpiSnapshotKey k == kpiSnapshotKey r then r else k)
              = t.map id :=
          List.map_congr_left (fun b hb => by
            simp only [id_eq]
            rw [if_neg]
            intro hb2
            exact hps.1 b hb (hkey.trans (beq_iff_eq.mp hb2).symm))
        rw [h1, List.map_id]
      have hfil : t.filter
          (fun k => kpiSnapshotKey k == kpiSnapshotKey r) = [] := by
        rw [List.filter_eq_nil_iff]
        intro b hb hb2
        exact hps.1 b hb (hkey.trans (beq_iff_eq.mp hb2).symm)
      simp only [List.map_cons, if_pos ha, hmapt, List.filter_cons]
      rw [if_pos (by simp), hfil]
    · have hanyt : t.any
          (fun k => kpiSnapshotKey k == kpiSnapshotKey r) = true := by
        simp only [List.any_cons, Bool.or_eq_true] at hany
        rcases hany with h1 | h2
        · exact absurd h1 ha
        · exact h2
      simp only [List.map_cons, if_neg ha, List.filter_cons]
      exact ih hps.2 hanyt

/-- One upsert keeps the uniqueness invariant of the snapshot table. -/
theorem upsertKpiSnapshot_unique (rows : List KpiSnapshot)
    (r : KpiSnapshot) (h : kpiUnique rows) :
    kpiUnique (upsertKpiSnapshot rows r) := by
  unfold upsertKpiSnapshot kpiUnique
  by_cases hany : rows.any
      (fun k => kpiSnapshotKey k == kpiSnapshotKey r) = true
  · rw [if_pos hany, List.pairwise_map]
    apply List.Pairwise.imp ?_ h
    intro a b hab
    rw [kpiSnapshotKey_replace, kpiSnapshotKey_replace]
    exact hab
  · rw [if_neg hany, List.pairwise_append]
    refine ⟨h, List.pairwise_singleton _ _, ?_⟩
    intro a ha b hb
    rw [List.mem_singleton] at hb
    rw [hb]
    have hfalse : rows.any
        (fun k => kpiSnapshotKey k == kpiSnapshotKey r) = false := by
      cases hb2 : rows.any (fun k => kpiSnapshotKey k == kpiSnapshotKey r)
      · rfl
      · exact absurd hb2 hany
    rw [List.any_eq_false] at hfalse
    intro hkeyEq
    exact hfalse a ha (beq_iff_eq.mpr hkeyEq)

/-- One upsert leaves exactly the new row under its uniqueness key. -/
theorem upsertKpiSnapshot_filter_key (rows : List KpiSnapshot)
    (r : KpiSnapshot) (h : kpiUnique rows) :
    (upsertKpiSnapshot rows r).filter
      (fun k => kpiSnapshotKey k == kpiSnapshotKey r) = [r] := by
  unfold upsertKpiSnapshot
  by_cases hany : rows.any
      (fun k => kpiSnapshotKey k == kpiSnapshotKey r) = true
  · rw [if_pos hany]
    exact replace_filter_key rows r h hany
  · rw [if_neg hany, List.filter_append]
    have hfalse : rows.any
        (fun k => kpiSnapshotKey k == kpiSnapshotKey r) = false := by
      cases hb : rows.any (fun k => kpiSnapshotKey k == kpiSnapshotKey r)
      · rfl
      · exact absurd hb hany
    rw [List.any_eq_false] at hfalse
    have h1 : rows.filter
        (fun k => kpiSnapshotKey k == kpiSnapshotKey r) = [] := by
      rw [List.filter_eq_nil_iff]
      exact hfalse
    rw [h1]
    simp

/-- C9: upserting twice for the same uniqueness tuple leaves exactly one
row for that tuple — the second write's row, holding the second value —
and preserves the schema uniqueness invariant (writer modelled from the
spec, see `upsertKpiSnapshot`). -/
theorem kpiUpsert_spec (rows : List KpiSnapshot) (r1 r2 : KpiSnapshot)
    (hU : kpiUnique rows) (hk : kpiSnapshotKey r1 = kpiSnapshotKey r2) :
    (upsertKpiSnapshot (upsertKpiSnapshot rows r1) r2).filter
      (fun k => kpiSnapshotKey k == kpiSnapshotKey r2) = [r2] ∧
    kpiUnique (upsertKpiSnapshot (upsertKpiSnapshot rows r1) r2) :=
  ⟨upsertKpiSnapshot_filter_key _ r2 (upsertKpiSnapshot_unique rows r1 hU),
   upsertKpiSnapshot_unique _ r2 (upsertKpiSnapshot_unique rows r1 hU)⟩

/-- Witness for `kpiUpsert_spec`: two writes for the same tuple with
values 100 then 250 leave exactly one row, holding 250. -/
theorem kpiUpsert_spec_witness :
    (upsertKpiSnapshot (upsertKpiSnapshot [] (kpiRow 100))
        (kpiRow 250)).filter
      (fun k => kpiSnapshotKey k == kpiSnapshotKey (kpiRow 250))
      = [kpiRow 250] :=
  (kpiUpsert_spec [] (kpiRow 100) (kpiRow 250) List.Pairwise.nil rfl).1

/-- C6 counterexample: for a request carrying both the header
x-org-id: 42 and the query parameter orgId=99, the middleware extraction
returns 99, not 42 — the header does not take priority. -/
theorem getOrgIdFromRequest_query_beats_header :
    getOrgIdFromRequest reqHeader42Query99 = some (JSNum.int 99) ∧
    getOrgIdFromRequest reqHeader42Query99 ≠ some (JSNum.int 42) :=
  ⟨rfl, by decide⟩

/-- C6 amended: the extraction tries the query parameter first, then the
header, then the path pattern, returning parseInt of the first truthy
candidate; with header x-org-id: 42 and query orgId=99 it returns 99. -/
theorem getOrgIdFromRequest_priority (req : NextRequest) :
    (truthyStr req.searchParamOrgId = true →
      getOrgIdFromRequest req =
        some (parseIntJS (req.searchParamOrgId.getD ""))) ∧
    (truthyStr req.searchParamOrgId = false →
      truthyStr req.headerOrgId = true →
      getOrgIdFromRequest req =
        some (parseIntJS (req.headerOrgId.getD ""))) ∧
    (truthyStr req.searchParamOrgId = false →
      truthyStr req.headerOrgId = false →
      getOrgIdFromRequest req =
        (findApiOrgDigits req.pathname.toList).map
          (fun ds => parseIntJS (String.mk ds))) ∧
    getOrgIdFromRequest reqHeader42Query99 = some (JSNum.int 99) := by
  refine ⟨?_, ?_, ?_, rfl⟩
  · intro h1
    unfold getOrgIdFromRequest
    rw [if_pos h1]
  · intro h1 h2
    unfold getOrgIdFromRequest
    rw [if_neg (by simp [h1]), if_pos h2]
  · intro h1 h2
    unfold getOrgIdFromRequest
    rw [if_neg (by simp [h1]), if_neg (by simp [h2])]
    cases findApiOrgDigits req.pathname.toList <;> rfl

/-- Witness for `getOrgIdFromRequest_priority` at the two-source
request. -/
theorem getOrgIdFromRequest_priority_witness :
    getOrgIdFromRequest reqHeader42Query99 = some (parseIntJS "99") :=
  (getOrgIdFromRequest_priority reqHeader42Query99).1 rfl

/-- C7 counterexample: the extraction validates nothing — a non-numeric
query parameter yields NaN, and zero and negative candidates are
returned as numbers, contradicting the claim that only syntactically
valid positive integers (or none) are returned. -/
theorem getOrgIdFromRequest_no_validation :
    getOrgIdFromRequest reqQueryAbc = some JSNum.nan ∧
    getOrgIdFromRequest reqQueryZero = some (JSNum.int 0) ∧
    getOrgIdFromRequest reqQueryNeg = some (JSNum.int (-5)) :=
  ⟨rfl, rfl, rfl⟩

/-- C7 amended: the extraction returns none exactly when no source yields
a truthy candidate (no non-empty query parameter or header and no path
match); otherwise it returns the raw parseInt result, which can be NaN,
zero or negative, as at the concrete NaN request. -/
theorem getOrgIdFromRequest_none_iff (req : NextRequest) :
    (getOrgIdFromRequest req = none ↔
      (truthyStr req.searchParamOrgId = false ∧
        truthyStr req.headerOrgId = false ∧
        findApiOrgDigits req.pathname.toList = none)) ∧
    getOrgIdFromRequest reqQueryAbc = some JSNum.nan := by
  constructor
  · unfold getOrgIdFromRequest
    by_cases h1 : truthyStr req.searchParamOrgId = true
    · rw [if_pos h1]
      simp [h1]
    · have h1f : truthyStr req.searchParamOrgId = false := by
        cases hb : truthyStr req.searchParamOrgId
        · rfl
        · exact absurd hb h1
      rw [if_neg h1]
      by_cases h2 : truthyStr req.headerOrgId = true
      · rw [if_pos h2]
        simp [h1f, h2]
      · have h2f : truthyStr req.headerOrgId = false := by
          cases hb : truthyStr req.headerOrgId
          · rfl
          · exact absurd hb h2
        rw [if_neg h2]
        cases hp : findApiOrgDigits req.pathname.toList with
        | none => simp [h1f, h2f]
        | some ds => simp [h1f, h2f]
  · rfl

/-- Witness for `getOrgIdFromRequest_none_iff`: a request with no org-id
source extracts none. -/
theorem getOrgIdFromRequest_none_iff_witness :
    getOrgIdFromRequest reqNoSource = none :=
  (getOrgIdFromRequest_none_iff reqNoSource).1.mpr ⟨rfl, rfl, rfl⟩

/-- C8: concrete evaluation of the dashboard aggregation at an
organization with one active project and eleven events (timestamps
1..11): the fetched events page is the ten OLDEST events — ascending
timestamp order capped at 10 — so the most recent event (timestamp 11)
is absent, while totalEvents reports the page length 10; totalProjects
and activeProjects count the fetched projects and all KPI snapshots are
fetched. -/
theorem getOrgDashboard_oldest_page :
    (getOrgDashboard (some su7) dashDb 1).map
      (fun d => (d.metrics.totalProjects, d.metrics.activeProjects,
        d.metrics.totalEvents,
        d.recentEvents.map (fun e => e.timestamp),
        d.kpiSnapshots.length))
      = Except.ok (1, 1, 10, [1, 2, 3, 4, 5, 6, 7, 8, 9, 10], 0) := rfl
